import Mathlib

/-!
Shallow embedding of the FXAS21002C gyroscope driver (`fxas21002c.py`) and
proofs about its configuration and conversion logic.

The driver is modelled as pure functions over an explicit device register
file (`Device`, a map from register address to the integer last written or
initially present) together with a trace of bus events (`Ev`).  Python
integers are modelled as `ℤ`; Python floats appearing in the conversion
paths are modelled as `ℚ` (every constant involved — the scale table,
273.15, 1.8 — is an exact decimal, and all operations are `+`/`*`, so the
rational model tracks the intended real-valued semantics).  Python bitwise
`&`, `|`, `~`, `<<` on integers are `Int.land`, `Int.lor`, `Int.lnot`,
`<<<`, which share Python's two's-complement-on-unbounded-integers
semantics.
-/

/-! ### Register map (from the source header constants) -/

def FXAS_I2C_ADDR : Nat := 0x20

def FXAS_H_OUT_X_MSB : Nat := 0x01

def FXAS_H_OUT_X_LSB : Nat := 0x02

def FXAS_H_OUT_Y_MSB : Nat := 0x03

def FXAS_H_OUT_Y_LSB : Nat := 0x04

def FXAS_H_OUT_Z_MSB : Nat := 0x05

def FXAS_H_OUT_Z_LSB : Nat := 0x06

def FXAS_H_CTRL_REG0 : Nat := 0x0D

def FXAS_H_RT_CFG : Nat := 0x0E

def FXAS_H_RT_THS : Nat := 0x10

def FXAS_H_RT_COUNT : Nat := 0x11

def FXAS_H_TEMP : Nat := 0x12

def FXAS_H_CTRL_REG1 : Nat := 0x13

def FXAS_H_CTRL_REG2 : Nat := 0x14

def FXAS_H_CTRL_REG3 : Nat := 0x15

/-! ### Named configuration constants (from the source) -/

def GODR_200HZ : Int := 2

def GFSR_2000DPS : Int := 0

def GFS_NOTDOUBLE : Int := 0

/-- `GSENS_COEFF`: the per-full-scale-range scale table of the source,
degrees per second per LSB. -/
def GSENS_COEFF : List ℚ := [0.0625, 0.03125, 0.015625, 0.0078125]

/-! ### Device and bus-event model -/

/-- The device register file: register address ↦ current content.  A read of
`n` bytes starting at `reg` returns the contents of `reg, reg+1, …`;
a write replaces the content of one register. -/
abbrev Device := Nat → Int

/-- One bus transaction, as issued by the driver: a register read of `n`
bytes, or a register write of one value. -/
inductive Ev where
  | rd (reg : Nat) (n : Nat)
  | wr (reg : Nat) (val : Int)
deriving DecidableEq

/-- `write_bytes` of the underlying bus class: store `v` at register `reg`. -/
def writeReg (d : Device) (reg : Nat) (v : Int) : Device :=
  fun r => if r = reg then v else d r

/-- `write_read(reg, n)` result: the `n` bytes at `reg, reg+1, …`. -/
def readBytes (d : Device) (reg n : Nat) : List Int :=
  (List.range n).map fun i => d (reg + i)

/-- The driver's three stored configuration fields (`self.fsr`,
`self.odr`, `self.fs_exp`). -/
structure DriverState where
  fsr : Int
  odr : Int
  fs_exp : Int
deriving DecidableEq

/-! ### The private setters of `init`, one function per source method.
Each returns the value it stores into the corresponding `self` field
(where it stores one), the updated device, and the bus events issued. -/

/-- `_standby`: read CTRL_REG1, clear its two low bits (`reg & ~0x03`),
write it back. -/
def _standby (d : Device) : Device × List Ev :=
  let reg := d FXAS_H_CTRL_REG1
  let reg2 := Int.land reg (Int.lnot 0x03)
  (writeReg d FXAS_H_CTRL_REG1 reg2,
   [Ev.rd FXAS_H_CTRL_REG1 1, Ev.wr FXAS_H_CTRL_REG1 reg2])

/-- The clamp in `_set_fs_exp`: `if fs_exp not in (0,1): fs_exp = 0`. -/
def clampFsExp (v : Int) : Int :=
  if v ∉ ([0, 1] : List Int) then 0 else v

/-- The (intended) clamp in `_set_fsr`.  The source condition
`fsr < 0 | fsr > 3` is a Python chained comparison
`fsr < (0 | fsr) and (0 | fsr) > 3` because bitwise `|` binds tighter
than comparison; it is embedded exactly as it parses. -/
def clampFsr (v : Int) : Int :=
  if v < Int.lor 0 v ∧ Int.lor 0 v > 3 then GFSR_2000DPS else v

/-- The (intended) clamp in `_set_odr`; same parse as `clampFsr`. -/
def clampOdr (v : Int) : Int :=
  if v < Int.lor 0 v ∧ Int.lor 0 v > 7 then GODR_200HZ else v

/-- `_set_fs_exp`: clamp, write CTRL_REG3, store `self.fs_exp`. -/
def _set_fs_exp (fs_exp : Int) (d : Device) : Int × Device × List Ev :=
  let v := clampFsExp fs_exp
  (v, writeReg d FXAS_H_CTRL_REG3 v, [Ev.wr FXAS_H_CTRL_REG3 v])

/-- `_set_fsr`: (dead) clamp, write CTRL_REG0, store `self.fsr`. -/
def _set_fsr (fsr : Int) (d : Device) : Int × Device × List Ev :=
  let v := clampFsr fsr
  (v, writeReg d FXAS_H_CTRL_REG0 v, [Ev.wr FXAS_H_CTRL_REG0 v])

/-- `_set_odr`: (dead) clamp, write `odr << 2` to CTRL_REG1, store
`self.odr` (unshifted). -/
def _set_odr (odr : Int) (d : Device) : Int × Device × List Ev :=
  let v := clampOdr odr
  (v, writeReg d FXAS_H_CTRL_REG1 (v <<< 2), [Ev.wr FXAS_H_CTRL_REG1 (v <<< 2)])

/-- `_set_ctrl_reg2`: write the fixed interrupt-routing constant 0x0E. -/
def _set_ctrl_reg2 (d : Device) : Device × List Ev :=
  (writeReg d FXAS_H_CTRL_REG2 0x0E, [Ev.wr FXAS_H_CTRL_REG2 0x0E])

/-- `_set_rate_threshold`: the three fixed rate-threshold writes. -/
def _set_rate_threshold (d : Device) : Device × List Ev :=
  let d1 := writeReg d FXAS_H_RT_CFG 0x07
  let d2 := writeReg d1 FXAS_H_RT_THS (Int.lor 0x00 0x0D)
  let d3 := writeReg d2 FXAS_H_RT_COUNT 0x04
  (d3, [Ev.wr FXAS_H_RT_CFG 0x07, Ev.wr FXAS_H_RT_THS (Int.lor 0x00 0x0D),
        Ev.wr FXAS_H_RT_COUNT 0x04])

/-- `_active`: read CTRL_REG1, write it back with the two low bits cleared,
then write that same value with bit 1 set. -/
def _active (d : Device) : Device × List Ev :=
  let reg := d FXAS_H_CTRL_REG1
  let reg1 := Int.land reg (Int.lnot 0x03)
  let d1 := writeReg d FXAS_H_CTRL_REG1 reg1
  let reg2 := Int.lor reg1 0x02
  let d2 := writeReg d1 FXAS_H_CTRL_REG1 reg2
  (d2, [Ev.rd FXAS_H_CTRL_REG1 1, Ev.wr FXAS_H_CTRL_REG1 reg1,
        Ev.wr FXAS_H_CTRL_REG1 reg2])

/-- `init(fsr, odr, fs_exp)`: standby, the four configuration writes, the
rate-threshold writes, activate.  Returns the stored configuration fields
(as left by the setters), the final device, and the full bus-event trace. -/
def init (fsr odr fs_exp : Int) (d : Device) : DriverState × Device × List Ev :=
  let s := _standby d
  let e := _set_fs_exp fs_exp s.1
  let f := _set_fsr fsr e.2.1
  let o := _set_odr odr f.2.1
  let c2 := _set_ctrl_reg2 o.2.1
  let rt := _set_rate_threshold c2.1
  let a := _active rt.1
  (⟨f.1, o.1, e.1⟩, a.1,
   s.2 ++ e.2.2 ++ f.2.2 ++ o.2.2 ++ c2.2 ++ rt.2 ++ a.2)

/-! ### The read/convert paths -/

/-- `get_raw_gyro`: read 6 bytes from OUT_X_MSB and reassemble three
big-endian 16-bit words `data[2i] << 8 | data[2i+1]`, X,Y,Z order. -/
def get_raw_gyro (d : Device) : List Int × List Ev :=
  let data := readBytes d FXAS_H_OUT_X_MSB 6
  let gx := Int.lor (data.getD 0 0 <<< 8) (data.getD 1 0)
  let gy := Int.lor (data.getD 2 0 <<< 8) (data.getD 3 0)
  let gz := Int.lor (data.getD 4 0 <<< 8) (data.getD 5 0)
  ([gx, gy, gz], [Ev.rd FXAS_H_OUT_X_MSB 6])

/-- `get_raw_int_temp`: read 1 byte from the temperature register. -/
def get_raw_int_temp (d : Device) : Int × List Ev :=
  (d FXAS_H_TEMP, [Ev.rd FXAS_H_TEMP 1])

/-- The per-word sign correction applied by `get_gyro` to each raw axis
word: `if raw >= 32769: raw -= 65535`. -/
def signCorrect (w : Int) : Int :=
  if w ≥ 32769 then w - 65535 else w

/-- The scaled conversion list built by `get_gyro`:
`[(g*GSENS_COEFF[self.fsr])*(self.fs_exp+1) for g in raw_gyro]` after the
three sign-correction statements.  (The list index is only exercised for
`fsr ∈ {0,1,2,3}`, where `getD _ 0` agrees with the Python indexing.) -/
def gyroVals (s : DriverState) (d : Device) : List ℚ :=
  let raw := (get_raw_gyro d).1
  ([signCorrect (raw.getD 0 0), signCorrect (raw.getD 1 0),
    signCorrect (raw.getD 2 0)]).map
    fun g => ((g : ℚ) * GSENS_COEFF.getD s.fsr.toNat 0) * ((s.fs_exp : ℚ) + 1)

/-- Return shape of `get_gyro`: one axis value, or the X,Y,Z list. -/
inductive GyroRet where
  | one (v : ℚ)
  | all (vs : List ℚ)
deriving DecidableEq

/-- `get_gyro(axis)`: raw read, sign correction, scaling, then axis
selection (`axis in ("x","X")`, …; anything else returns the list).
`axis = none` models Python's default `axis=None`. -/
def get_gyro (s : DriverState) (d : Device) (axis : Option String) :
    GyroRet × List Ev :=
  let gyro := gyroVals s d
  let ret :=
    if axis ∈ ([some "x", some "X"] : List (Option String)) then
      GyroRet.one (gyro.getD 0 0)
    else if axis ∈ ([some "y", some "Y"] : List (Option String)) then
      GyroRet.one (gyro.getD 1 0)
    else if axis ∈ ([some "z", some "Z"] : List (Option String)) then
      GyroRet.one (gyro.getD 2 0)
    else GyroRet.all gyro
  (ret, (get_raw_gyro d).2)

/-- `get_int_temp(unit)`: raw temperature read, sign fold at 128, then unit
selection; an unrecognized unit yields `none` (Python's `None`). -/
def get_int_temp (d : Device) (unit : String) : Option ℚ × List Ev :=
  let r := get_raw_int_temp d
  let temp_cels : Int := if r.1 ≥ 128 then r.1 - 256 else r.1
  let ret : Option ℚ :=
    if unit ∈ (["c", "C"] : List String) then some (temp_cels : ℚ)
    else if unit ∈ (["k", "K"] : List String) then some ((temp_cels : ℚ) + 273.15)
    else if unit ∈ (["f", "F"] : List String) then some ((temp_cels : ℚ) * 1.8 + 32)
    else none
  (ret, r.2)

/-- `get_int_temp` with a fallible transport: the register read is the
first action of the method, so a transport failure propagates (as the
Python exception does) before the `unit` argument is ever inspected. -/
def get_int_tempE (raw_read : Except String Int) (unit : String) :
    Except String (Option ℚ) :=
  match raw_read with
  | Except.error e => Except.error e
  | Except.ok raw_t =>
    let temp_cels : Int := if raw_t ≥ 128 then raw_t - 256 else raw_t
    Except.ok
      (if unit ∈ (["c", "C"] : List String) then some (temp_cels : ℚ)
       else if unit ∈ (["k", "K"] : List String) then some ((temp_cels : ℚ) + 273.15)
       else if unit ∈ (["f", "F"] : List String) then some ((temp_cels : ℚ) * 1.8 + 32)
       else none)

/-! ### Concrete devices used as test fixtures -/

/-- A device whose registers all read 0. -/
def dev0 : Device := fun _ => 0

/-- A device whose six gyro output registers hold
`0x7F, 0xFF, 0x00, 0x01, 0x80, 0x00`. -/
def dev6 : Device := fun r =>
  if r = 1 then 0x7F else if r = 2 then 0xFF else if r = 3 then 0 else
  if r = 4 then 1 else if r = 5 then 0x80 else 0

/-- A device whose temperature register holds `r`. -/
def devT (r : Int) : Device :=
  fun a => if a = FXAS_H_TEMP then r else 0

/-! ### Helper lemmas -/

lemma lor_zero_left (n : Int) : Int.lor 0 n = n := by
  cases n
  · show ((Nat.lor 0 _ : Nat) : Int) = _
    exact congrArg Int.ofNat (Nat.zero_or _)
  · show Int.negSucc (Nat.ldiff _ 0) = _
    simp [Nat.ldiff]

/-- The bound check of `_set_fsr` is dead: `fsr < (0|fsr) and (0|fsr) > 3`
is false for every integer. -/
lemma clampFsr_id (v : Int) : clampFsr v = v := by
  unfold clampFsr
  rw [lor_zero_left]
  simp

/-- The bound check of `_set_odr` is dead, for the same reason. -/
lemma clampOdr_id (v : Int) : clampOdr v = v := by
  unfold clampOdr
  rw [lor_zero_left]
  simp

/-- A value with its two low bits cleared differs from the same value with
bit 1 then set: the standby and active control-register writes are distinct. -/
lemma land_lnot_ne_lor_two (v : Int) :
    Int.land v (Int.lnot 3) ≠ Int.lor (Int.land v (Int.lnot 3)) 2 := by
  intro h
  have h1 := congrArg (fun x => Int.testBit x 1) h
  simp only [Int.testBit_land, Int.testBit_lnot, Int.testBit_lor] at h1
  have h3 : Int.testBit 3 1 = true := by decide
  have h2 : Int.testBit 2 1 = true := by decide
  rw [h3, h2] at h1
  simp at h1

/-- Normal form of the full `init` bus-event trace. -/
lemma init_trace (fsr odr fs_exp : Int) (d : Device) :
    (init fsr odr fs_exp d).2.2 =
      [Ev.rd FXAS_H_CTRL_REG1 1,
       Ev.wr FXAS_H_CTRL_REG1 (Int.land (d FXAS_H_CTRL_REG1) (Int.lnot 0x03)),
       Ev.wr FXAS_H_CTRL_REG3 (clampFsExp fs_exp),
       Ev.wr FXAS_H_CTRL_REG0 (clampFsr fsr),
       Ev.wr FXAS_H_CTRL_REG1 (clampOdr odr <<< 2),
       Ev.wr FXAS_H_CTRL_REG2 0x0E,
       Ev.wr FXAS_H_RT_CFG 0x07,
       Ev.wr FXAS_H_RT_THS (Int.lor 0x00 0x0D),
       Ev.wr FXAS_H_RT_COUNT 0x04,
       Ev.rd FXAS_H_CTRL_REG1 1,
       Ev.wr FXAS_H_CTRL_REG1 (Int.land (clampOdr odr <<< 2) (Int.lnot 0x03)),
       Ev.wr FXAS_H_CTRL_REG1
         (Int.lor (Int.land (clampOdr odr <<< 2) (Int.lnot 0x03)) 0x02)] := rfl

/-- Normal form of the configuration fields stored by `init`. -/
lemma init_fields (fsr odr fs_exp : Int) (d : Device) :
    (init fsr odr fs_exp d).1 =
      ⟨clampFsr fsr, clampOdr odr, clampFsExp fs_exp⟩ := rfl

/-- After `init`, CTRL_REG1 holds the activate value. -/
lemma init_dev_reg1 (fsr odr fs_exp : Int) (d : Device) :
    (init fsr odr fs_exp d).2.1 FXAS_H_CTRL_REG1 =
      Int.lor (Int.land (clampOdr odr <<< 2) (Int.lnot 0x03)) 0x02 := rfl

lemma land0_lnot3 : Int.land 0 (Int.lnot 3) = 0 := by
  show ((Nat.ldiff 0 3 : Nat) : Int) = 0
  have h : Nat.ldiff 0 3 = 0 := by simp [Nat.ldiff, Nat.bitwise]
  rw [h]
  rfl

lemma land8_lnot3 : Int.land 8 (Int.lnot 3) = 8 := by
  show ((Nat.ldiff 8 3 : Nat) : Int) = 8
  have h : Nat.ldiff 8 3 = 8 := by simp [Nat.ldiff, Nat.bitwise]
  rw [h]
  rfl

lemma land10_lnot3 : Int.land 10 (Int.lnot 3) = 8 := by
  show ((Nat.ldiff 10 3 : Nat) : Int) = 8
  have h : Nat.ldiff 10 3 = 8 := by simp [Nat.ldiff, Nat.bitwise]
  rw [h]
  rfl

/-- Is the event a register write? -/
def Ev.isWr : Ev → Bool
  | Ev.wr _ _ => true
  | Ev.rd _ _ => false

/-- The register-write subsequence of a trace. -/
def writesOf (t : List Ev) : List Ev := t.filter Ev.isWr

/-- An unrecognized unit string makes `get_int_temp` return the `none`
sentinel (after the read; the read is unconditional). -/
lemma get_int_temp_unknown_unit (d : Device) (unit : String)
    (h : unit ∉ (["c", "C", "k", "K", "f", "F"] : List String)) :
    (get_int_temp d unit).1 = none := by
  simp only [List.mem_cons, List.not_mem_nil, or_false, not_or] at h
  obtain ⟨hc, hC, hk, hK, hlf, hF⟩ := h
  simp [get_int_temp, get_raw_int_temp, hc, hC, hk, hK, hlf, hF]

/-- The spec-side scale coefficient: `table[fullScaleRange] × (rangeExpansion+1)`
with the table written out, for comparison with what `get_gyro` computes. -/
def specScaleCoeff (fsr fs_exp : Int) : ℚ :=
  (([0.0625, 0.03125, 0.015625, 0.0078125] : List ℚ).getD fsr.toNat 0) *
    ((fs_exp : ℚ) + 1)

/-! ### Claim theorems -/

/-- C1: for every fullScaleRange in {0,1,2,3} and rangeExpansion in {0,1},
the factor `get_gyro` applies to each sign-corrected axis word equals
`GSENS_COEFF[fullScaleRange] * (rangeExpansion + 1)` — with the table being
exactly 0.0625, 0.03125, 0.015625, 0.0078125 — and the result of `get_gyro`
does not depend on the stored outputDataRate. -/
theorem C1_scale_coeff (fsr fs_exp odr odr2 : Int) (d : Device)
    (axis : Option String)
    (_hf : fsr = 0 ∨ fsr = 1 ∨ fsr = 2 ∨ fsr = 3)
    (_he : fs_exp = 0 ∨ fs_exp = 1) :
    GSENS_COEFF = [0.0625, 0.03125, 0.015625, 0.0078125] ∧
    gyroVals ⟨fsr, odr, fs_exp⟩ d =
      ((get_raw_gyro d).1.map signCorrect).map
        (fun g => (g : ℚ) * specScaleCoeff fsr fs_exp) ∧
    get_gyro ⟨fsr, odr, fs_exp⟩ d axis = get_gyro ⟨fsr, odr2, fs_exp⟩ d axis := by
  refine ⟨rfl, ?_, rfl⟩
  simp [gyroVals, get_raw_gyro, specScaleCoeff, GSENS_COEFF, mul_assoc]

/-- Witness for C1 at fullScaleRange 2, rangeExpansion 1, outputDataRate
0 versus 7, on the all-zero device. -/
theorem C1_scale_coeff_witness :
    GSENS_COEFF = [0.0625, 0.03125, 0.015625, 0.0078125] ∧
    gyroVals ⟨2, 0, 1⟩ dev0 =
      ((get_raw_gyro dev0).1.map signCorrect).map
        (fun g => (g : ℚ) * specScaleCoeff 2 1) ∧
    get_gyro ⟨2, 0, 1⟩ dev0 none = get_gyro ⟨2, 7, 1⟩ dev0 none :=
  C1_scale_coeff 2 1 0 7 dev0 none (by decide) (by decide)

/-- C2: the sign correction `get_gyro` applies to each raw axis word maps a
word ≥ 32769 to word − 65535 (so 32769 becomes −32766) and leaves a word
≤ 32768 unchanged (in particular 32768 stays 32768). -/
theorem C2_sign_correction (w : Int) :
    (32769 ≤ w → signCorrect w = w - 65535) ∧
    (w ≤ 32768 → signCorrect w = w) ∧
    signCorrect 32769 = -32766 ∧
    signCorrect 32768 = 32768 := by
  refine ⟨fun h => ?_, fun h => ?_, by decide, by decide⟩
  · unfold signCorrect
    rw [if_pos h]
  · unfold signCorrect
    rw [if_neg (by omega)]

/-- Witness for C2 at the boundary words 32769 and 32768. -/
theorem C2_sign_correction_witness :
    signCorrect 32769 = 32769 - 65535 ∧ signCorrect 32768 = 32768 :=
  ⟨(C2_sign_correction 32769).1 (by decide),
   (C2_sign_correction 32768).2.1 (by decide)⟩

/-- C3 (code bug): the out-of-range clamp for fullScaleRange and
outputDataRate is unreachable.  The source guard `fsr < 0 | fsr > 3` is the
chained comparison `fsr < (0|fsr) and (0|fsr) > 3`, false for every
integer, so the intended clamp to the defaults (0 resp. 2) never fires: the
failing inputs fsr = 5 and odr = 9 are stored and written to the device
registers unchanged. -/
theorem C3_clamp_defect :
    (∀ v : Int, clampFsr v = v) ∧ (∀ v : Int, clampOdr v = v) ∧
    (_set_fsr 5 dev0).1 = 5 ∧
    (_set_fsr 5 dev0).2.2 = [Ev.wr FXAS_H_CTRL_REG0 5] ∧
    (_set_odr 9 dev0).1 = 9 ∧
    (_set_odr 9 dev0).2.2 = [Ev.wr FXAS_H_CTRL_REG1 36] ∧
    (init 5 9 0 dev0).1 = ⟨5, 9, 0⟩ :=
  ⟨clampFsr_id, clampOdr_id, by decide, by decide, by decide, by decide,
   by decide⟩

/-- C4: in every run of `init` the standby transaction (read CTRL_REG1,
write it back with the two low bits cleared) strictly precedes the four
configuration writes (range expansion, full-scale range, `odr << 2`,
interrupt routing), and the activate step issues exactly two distinct
writes to CTRL_REG1: the read value with the two low bits cleared, then
that same value with bit 1 set. -/
theorem C4_init_order (fsr odr fs_exp : Int) (d : Device) :
    (init fsr odr fs_exp d).2.2 =
      [Ev.rd FXAS_H_CTRL_REG1 1,
       Ev.wr FXAS_H_CTRL_REG1 (Int.land (d FXAS_H_CTRL_REG1) (Int.lnot 0x03)),
       Ev.wr FXAS_H_CTRL_REG3 (clampFsExp fs_exp),
       Ev.wr FXAS_H_CTRL_REG0 (clampFsr fsr),
       Ev.wr FXAS_H_CTRL_REG1 (clampOdr odr <<< 2),
       Ev.wr FXAS_H_CTRL_REG2 0x0E,
       Ev.wr FXAS_H_RT_CFG 0x07,
       Ev.wr FXAS_H_RT_THS (Int.lor 0x00 0x0D),
       Ev.wr FXAS_H_RT_COUNT 0x04,
       Ev.rd FXAS_H_CTRL_REG1 1,
       Ev.wr FXAS_H_CTRL_REG1 (Int.land (clampOdr odr <<< 2) (Int.lnot 0x03)),
       Ev.wr FXAS_H_CTRL_REG1
         (Int.lor (Int.land (clampOdr odr <<< 2) (Int.lnot 0x03)) 0x02)] ∧
    Int.land (clampOdr odr <<< 2) (Int.lnot 0x03) ≠
      Int.lor (Int.land (clampOdr odr <<< 2) (Int.lnot 0x03)) 0x02 :=
  ⟨init_trace fsr odr fs_exp d, land_lnot_ne_lor_two _⟩

/-- C6: `get_raw_gyro` reads 6 contiguous bytes starting at the X-axis
high-byte register 0x01 and assembles them big-endian into three unsigned
words in X, Y, Z order; the bytes 0x7F,0xFF,0x00,0x01,0x80,0x00 give
[32767, 1, 32768]. -/
theorem C6_raw_readout (d : Device) :
    (get_raw_gyro d).2 = [Ev.rd FXAS_H_OUT_X_MSB 6] ∧
    (get_raw_gyro d).1 =
      [Int.lor (d 0x01 <<< 8) (d 0x02), Int.lor (d 0x03 <<< 8) (d 0x04),
       Int.lor (d 0x05 <<< 8) (d 0x06)] ∧
    (get_raw_gyro dev6).1 = [32767, 1, 32768] :=
  ⟨rfl, rfl, by decide⟩

/-- C5 fails as stated: starting from an all-zero device with the default
arguments (0, 2, 0), the first `init` standby-writes 0 to CTRL_REG1 while
the second `init` standby-writes 8 (the ODR bits left behind by the first
call), so the two register-write sequences differ. -/
theorem C5_repeat_divergence :
    writesOf (init 0 2 0 ((init 0 2 0 dev0).2.1)).2.2 ≠
      writesOf (init 0 2 0 dev0).2.2 := by
  have hc : clampOdr 2 <<< 2 = (8 : Int) := by decide
  have hdev : Int.land (dev0 FXAS_H_CTRL_REG1) (Int.lnot 0x03) = 0 := land0_lnot3
  have hreg : (init 0 2 0 dev0).2.1 FXAS_H_CTRL_REG1 = 10 := by
    rw [init_dev_reg1, hc, land8_lnot3]
    decide
  have t1 : writesOf (init 0 2 0 dev0).2.2 =
      [Ev.wr FXAS_H_CTRL_REG1 0, Ev.wr FXAS_H_CTRL_REG3 0,
       Ev.wr FXAS_H_CTRL_REG0 0, Ev.wr FXAS_H_CTRL_REG1 8,
       Ev.wr FXAS_H_CTRL_REG2 0x0E, Ev.wr FXAS_H_RT_CFG 0x07,
       Ev.wr FXAS_H_RT_THS 0x0D, Ev.wr FXAS_H_RT_COUNT 0x04,
       Ev.wr FXAS_H_CTRL_REG1 8, Ev.wr FXAS_H_CTRL_REG1 10] := by
    rw [init_trace, hdev, hc, land8_lnot3]
    decide
  have t2 : writesOf (init 0 2 0 ((init 0 2 0 dev0).2.1)).2.2 =
      [Ev.wr FXAS_H_CTRL_REG1 8, Ev.wr FXAS_H_CTRL_REG3 0,
       Ev.wr FXAS_H_CTRL_REG0 0, Ev.wr FXAS_H_CTRL_REG1 8,
       Ev.wr FXAS_H_CTRL_REG2 0x0E, Ev.wr FXAS_H_RT_CFG 0x07,
       Ev.wr FXAS_H_RT_THS 0x0D, Ev.wr FXAS_H_RT_COUNT 0x04,
       Ev.wr FXAS_H_CTRL_REG1 8, Ev.wr FXAS_H_CTRL_REG1 10] := by
    rw [init_trace, hreg, land10_lnot3, hc, land8_lnot3]
    decide
  rw [t1, t2]
  decide

/-- C5 (amended): a second `init` with arguments identical to the first
stores the same configuration fields and issues the same register-write
sequence except for the initial standby write, whose value is the prior
CTRL_REG1 content with its two low bits cleared (after the first call,
the activated ODR bits rather than the pristine register content). -/
theorem C5_second_call (fsr odr fs_exp : Int) (d : Device) :
    (init fsr odr fs_exp ((init fsr odr fs_exp d).2.1)).1 =
      (init fsr odr fs_exp d).1 ∧
    writesOf (init fsr odr fs_exp ((init fsr odr fs_exp d).2.1)).2.2 =
      Ev.wr FXAS_H_CTRL_REG1
          (Int.land ((init fsr odr fs_exp d).2.1 FXAS_H_CTRL_REG1)
            (Int.lnot 0x03)) ::
        (writesOf (init fsr odr fs_exp d).2.2).tail ∧
    (writesOf (init fsr odr fs_exp d).2.2).head? =
      some (Ev.wr FXAS_H_CTRL_REG1
        (Int.land (d FXAS_H_CTRL_REG1) (Int.lnot 0x03))) :=
  ⟨rfl, rfl, rfl⟩

/-- C7: `get_int_temp` folds a raw byte ≥ 128 to `raw − 256` Celsius,
returns Celsius unchanged for "C"/"c", adds 273.15 for "K"/"k", applies
`× 1.8 + 32` for "F"/"f", and returns the `none` sentinel (distinct from a
valid reading of 0) for any other unit; raw byte 200 gives −56 °C,
217.15 K, −68.8 °F. -/
theorem C7_temperature (r : Int) (unit : String) :
    (unit ∉ (["c", "C", "k", "K", "f", "F"] : List String) →
      (get_int_temp (devT r) unit).1 = none) ∧
    (get_int_temp (devT r) "C").1 =
      some ((if r ≥ 128 then r - 256 else r : Int) : ℚ) ∧
    (get_int_temp (devT r) "c").1 =
      some ((if r ≥ 128 then r - 256 else r : Int) : ℚ) ∧
    (get_int_temp (devT r) "K").1 =
      some (((if r ≥ 128 then r - 256 else r : Int) : ℚ) + 273.15) ∧
    (get_int_temp (devT r) "k").1 =
      some (((if r ≥ 128 then r - 256 else r : Int) : ℚ) + 273.15) ∧
    (get_int_temp (devT r) "F").1 =
      some (((if r ≥ 128 then r - 256 else r : Int) : ℚ) * 1.8 + 32) ∧
    (get_int_temp (devT r) "f").1 =
      some (((if r ≥ 128 then r - 256 else r : Int) : ℚ) * 1.8 + 32) ∧
    (get_int_temp (devT 200) "C").1 = some (-56) ∧
    (get_int_temp (devT 200) "K").1 = some 217.15 ∧
    (get_int_temp (devT 200) "F").1 = some (-68.8) ∧
    (get_int_temp (devT 200) "q").1 = none ∧
    (get_int_temp (devT 200) "q").1 ≠ some 0 := by
  refine ⟨get_int_temp_unknown_unit _ unit, rfl, rfl, rfl, rfl, rfl, rfl,
    ?_, ?_, ?_, rfl, ?_⟩
  · have h : (get_int_temp (devT 200) "C").1 =
        some ((((200 : Int) - 256 : Int)) : ℚ) := rfl
    rw [h]
    norm_num
  · have h : (get_int_temp (devT 200) "K").1 =
        some (((((200 : Int) - 256 : Int)) : ℚ) + 273.15) := rfl
    rw [h]
    norm_num
  · have h : (get_int_temp (devT 200) "F").1 =
        some (((((200 : Int) - 256 : Int)) : ℚ) * 1.8 + 32) := rfl
    rw [h]
    norm_num
  · have h : (get_int_temp (devT 200) "q").1 = none := rfl
    rw [h]
    simp

/-- Witness for C7 at raw byte 200 and the unrecognized unit "q". -/
theorem C7_temperature_witness :
    (get_int_temp (devT 200) "q").1 = none ∧
    (get_int_temp (devT 200) "K").1 = some 217.15 :=
  ⟨(C7_temperature 200 "q").1 (by decide),
   (C7_temperature 200 "q").2.2.2.2.2.2.2.2.1⟩

/-- C8: `get_gyro` with a case-insensitive "x"/"y"/"z" axis returns only
that axis's scaled value; an absent (`none`) or unrecognized axis returns
the ordered X, Y, Z triple. -/
theorem C8_axis_selection (s : DriverState) (d : Device) (str : String) :
    (get_gyro s d (some "x")).1 = GyroRet.one ((gyroVals s d).getD 0 0) ∧
    (get_gyro s d (some "X")).1 = GyroRet.one ((gyroVals s d).getD 0 0) ∧
    (get_gyro s d (some "y")).1 = GyroRet.one ((gyroVals s d).getD 1 0) ∧
    (get_gyro s d (some "Y")).1 = GyroRet.one ((gyroVals s d).getD 1 0) ∧
    (get_gyro s d (some "z")).1 = GyroRet.one ((gyroVals s d).getD 2 0) ∧
    (get_gyro s d (some "Z")).1 = GyroRet.one ((gyroVals s d).getD 2 0) ∧
    (get_gyro s d none).1 = GyroRet.all (gyroVals s d) ∧
    (get_gyro s d (some "Q")).1 = GyroRet.all (gyroVals s d) ∧
    (str ∉ (["x", "X", "y", "Y", "z", "Z"] : List String) →
      (get_gyro s d (some str)).1 = GyroRet.all (gyroVals s d)) := by
  refine ⟨rfl, rfl, rfl, rfl, rfl, rfl, rfl, rfl, fun h => ?_⟩
  simp only [List.mem_cons, List.not_mem_nil, or_false, not_or] at h
  obtain ⟨hx, hX, hy, hY, hz, hZ⟩ := h
  simp [get_gyro, hx, hX, hy, hY, hz, hZ]

/-- Witness for C8: axis "y" versus the unrecognized axis "Q" on the
all-zero device with configuration (0, 2, 0). -/
theorem C8_axis_selection_witness :
    (get_gyro ⟨0, 2, 0⟩ dev0 (some "y")).1 =
      GyroRet.one ((gyroVals ⟨0, 2, 0⟩ dev0).getD 1 0) ∧
    (get_gyro ⟨0, 2, 0⟩ dev0 (some "Q")).1 =
      GyroRet.all (gyroVals ⟨0, 2, 0⟩ dev0) :=
  ⟨(C8_axis_selection ⟨0, 2, 0⟩ dev0 "Q").2.2.1,
   (C8_axis_selection ⟨0, 2, 0⟩ dev0 "Q").2.2.2.2.2.2.2.2 (by decide)⟩

/-- C9: a rangeExpansion argument outside {0,1} is clamped to 0 before
being written to CTRL_REG3 and stored, so after `init` the stored
`fs_exp` is in {0,1} and equals the value written to the device. -/
theorem C9_fs_exp_clamp (fsr odr fs_exp : Int) (d : Device) :
    ((fs_exp ≠ 0 ∧ fs_exp ≠ 1) →
      clampFsExp fs_exp = 0 ∧ (init fsr odr fs_exp d).1.fs_exp = 0) ∧
    ((init fsr odr fs_exp d).1.fs_exp = 0 ∨
      (init fsr odr fs_exp d).1.fs_exp = 1) ∧
    Ev.wr FXAS_H_CTRL_REG3 ((init fsr odr fs_exp d).1.fs_exp) ∈
      (init fsr odr fs_exp d).2.2 := by
  have hfield : (init fsr odr fs_exp d).1.fs_exp = clampFsExp fs_exp := rfl
  refine ⟨fun h => ?_, ?_, ?_⟩
  · have h0 : clampFsExp fs_exp = 0 := by simp [clampFsExp, h.1, h.2]
    exact ⟨h0, by rw [hfield, h0]⟩
  · rw [hfield]
    unfold clampFsExp
    by_cases hm : fs_exp ∈ ([0, 1] : List Int)
    · rw [if_neg (not_not_intro hm)]
      simpa using hm
    · rw [if_pos hm]
      exact Or.inl rfl
  · rw [hfield, init_trace]
    simp

/-- Witness for C9 at the out-of-range rangeExpansion 7. -/
theorem C9_fs_exp_clamp_witness :
    clampFsExp 7 = 0 ∧ (init 0 2 7 dev0).1.fs_exp = 0 :=
  (C9_fs_exp_clamp 0 2 7 dev0).1 (by decide)

/-- C10: `get_int_temp` issues its single temperature-register read before
inspecting the unit argument: the trace is the one read for every unit, a
transport error on that read propagates regardless of the unit, and the
`none` sentinel for an unrecognized unit is produced only alongside the
completed read. -/
theorem C10_temp_read_before_unit (d : Device) (unit e : String) :
    (get_int_temp d unit).2 = [Ev.rd FXAS_H_TEMP 1] ∧
    get_int_tempE (Except.error e) unit = Except.error e ∧
    (unit ∉ (["c", "C", "k", "K", "f", "F"] : List String) →
      (get_int_temp d unit).1 = none ∧
      (get_int_temp d unit).2 = [Ev.rd FXAS_H_TEMP 1]) :=
  ⟨rfl, rfl, fun h => ⟨get_int_temp_unknown_unit d unit h, rfl⟩⟩

/-- Witness for C10 on the all-zero device with the unrecognized unit "q"
and a failing transport. -/
theorem C10_temp_read_before_unit_witness :
    (get_int_temp dev0 "q").2 = [Ev.rd FXAS_H_TEMP 1] ∧
    get_int_tempE (Except.error "bus fail") "q" = Except.error "bus fail" ∧
    ((get_int_temp dev0 "q").1 = none ∧
      (get_int_temp dev0 "q").2 = [Ev.rd FXAS_H_TEMP 1]) :=
  ⟨(C10_temp_read_before_unit dev0 "q" "bus fail").1,
   (C10_temp_read_before_unit dev0 "q" "bus fail").2.1,
   (C10_temp_read_before_unit dev0 "q" "bus fail").2.2 (by decide)⟩
